import Mathlib

/-!
Verification development for the WBGT (wet bulb globe temperature) numerical
core in src/src/pywbgt/src/liljegren_c.c.

The C code is shallowly embedded over the exact rationals.  Every quantity the
program stores in a float or double is modelled as a rational number, and the
transcendental library routines the program calls (sin, cos, tan, asin, acos,
atan2, exp, log, sqrt, pow) together with the external spa_calculate routine
are abstract parameters collected in a MathOps record.  The structural claims
proved below hold for every interpretation of these parameters; concrete
interpretations are supplied where a claim needs an evaluated run.

C integer casts, integer division, fabs, round and the max and min macros are
modelled exactly (truncation toward zero, remainder with the sign of the
dividend, and conditional expressions) by the c-prefixed helpers.
-/

namespace WBGT

/-- The C max macro: ((a) > (b) ? (a) : (b)). -/
def cmax (a b : ℚ) : ℚ := if a > b then a else b

/-- The C min macro: ((a) < (b) ? (a) : (b)). -/
def cmin (a b : ℚ) : ℚ := if a < b then a else b

/-- C fabs. -/
def cfabs (a : ℚ) : ℚ := if a < 0 then -a else a

/-- C truncation toward zero, as in an (int) cast or the integral part of modf. -/
def ctrunc (q : ℚ) : ℤ := if q < 0 then -⌊-q⌋ else ⌊q⌋

/-- Fractional part returned by C modf: q minus its truncation toward zero. -/
def cfrac (q : ℚ) : ℚ := q - ctrunc q

/-- C round: nearest integer, halfway cases away from zero. -/
def cround (q : ℚ) : ℤ := if q < 0 then -⌊-q + 1/2⌋ else ⌊q + 1/2⌋

/-- C integer division for int operands: truncation toward zero. -/
def cdiv (a b : ℤ) : ℤ := if a < 0 then -(-a / b) else a / b

/-- C integer remainder for int operands: sign follows the dividend. -/
def cmod (a b : ℤ) : ℤ := a - b * cdiv a b

/-- Input record handed to the external spa_calculate routine. -/
structure SpaIn where
  latitude : ℚ
  longitude : ℚ
  year : ℤ
  month : ℤ
  day : ℤ
  hour : ℤ
  minute : ℤ
  second : ℤ
  pressure : ℚ
  temperature : ℚ
  elevation : ℚ
  delta_t : ℚ
  delta_ut1 : ℚ

/-- Fields of spa_data read back after spa_calculate: the return code, the
solar zenith angle and the Earth-Sun distance r. -/
structure SpaOut where
  result : ℤ
  zenith : ℚ
  r : ℚ

/-- Abstract interpretations of the transcendental C library functions used by
the program, plus the external spa_calculate routine.  The embedding is
parametric in this record. -/
structure MathOps where
  sin : ℚ → ℚ
  cos : ℚ → ℚ
  tan : ℚ → ℚ
  asin : ℚ → ℚ
  acos : ℚ → ℚ
  atan2 : ℚ → ℚ → ℚ
  exp : ℚ → ℚ
  log : ℚ → ℚ
  sqrt : ℚ → ℚ
  pow : ℚ → ℚ → ℚ
  spaCalc : SpaIn → SpaOut

/- mathematical constants (the exact decimal literals of the C source) -/

def PI : ℚ := 3.1415926535897932
def TWOPI : ℚ := 6.2831853071795864
def DEG_RAD : ℚ := 0.017453292519943295
def RAD_DEG : ℚ := 57.295779513082323

/- physical constants -/

def SOLAR_CONST : ℚ := 1367
def STEFANB : ℚ := 5.6696e-8
def Cp : ℚ := 1003.5
def M_AIR : ℚ := 28.97
def M_H2O : ℚ := 18.015
def RATIO : ℚ := Cp * M_AIR / M_H2O
def R_GAS : ℚ := 8314.34
def R_AIR : ℚ := R_GAS / M_AIR
def Pr : ℚ := Cp / (Cp + 1.25 * R_AIR)

/- wick constants -/

def EMIS_WICK : ℚ := 0.95
def ALB_WICK : ℚ := 0.4
def D_WICK : ℚ := 0.007
def L_WICK : ℚ := 0.0254

/- globe constants -/

def EMIS_GLOBE : ℚ := 0.95
def ALB_GLOBE : ℚ := 0.05
def D_GLOBE : ℚ := 0.0508

/- surface constants -/

def EMIS_SFC : ℚ := 0.999
def ALB_SFC : ℚ := 0.45

/- computational and physical limits -/

def CZA_MIN : ℚ := 0.00873
def NORMSOLAR_MAX : ℚ := 0.85
def REF_HEIGHT : ℚ := 2.0
def MIN_SPEED : ℚ := 0.13
def CONVERGENCE : ℚ := 0.02
def MAX_ITER : ℕ := 50

/-- esat: saturation vapor pressure (mb) over liquid water (phase = 0) or
ice (phase = 1), Buck 1981 approximation. -/
def esat (ops : MathOps) (tk : ℚ) (phase : ℤ) : ℚ :=
  if phase = 0 then
    let y := (tk - 273.15) / (tk - 32.18)
    let es := 6.1121 * ops.exp (17.502 * y)
    1.004 * es
  else
    let y := (tk - 273.15) / (tk - 0.6)
    let es := 6.1115 * ops.exp (22.452 * y)
    1.004 * es

/-- dew_point: dew point (phase = 0) or frost point (phase = 1) temperature, K. -/
def dew_point (ops : MathOps) (e : ℚ) (phase : ℤ) : ℚ :=
  if phase = 0 then
    let z := ops.log (e / (6.1121 * 1.004))
    273.15 + 240.97 * z / (17.502 - z)
  else
    let z := ops.log (e / (6.1115 * 1.004))
    273.15 + 272.55 * z / (22.452 - z)

/-- viscosity of air, kg/(m s). -/
def viscosity (ops : MathOps) (Tair : ℚ) : ℚ :=
  let sigma : ℚ := 3.617
  let eps_kappa : ℚ := 97.0
  let Tr := Tair / eps_kappa
  let omega := (Tr - 2.9) / 0.4 * (-0.034) + 1.048
  2.6693e-6 * ops.sqrt (M_AIR * Tair) / (sigma * sigma * omega)

/-- thermal conductivity of air, W/(m K). -/
def thermal_cond (ops : MathOps) (Tair : ℚ) : ℚ :=
  (Cp + 1.25 * R_AIR) * viscosity ops Tair

/-- diffusivity of water vapor in air, m2/s. -/
def diffusivity (ops : MathOps) (Tair Pair : ℚ) : ℚ :=
  let Pcrit_air : ℚ := 36.4
  let Pcrit_h2o : ℚ := 218
  let Tcrit_air : ℚ := 132
  let Tcrit_h2o : ℚ := 647.3
  let a : ℚ := 3.640e-4
  let b : ℚ := 2.334
  let Pcrit13 := ops.pow (Pcrit_air * Pcrit_h2o) (1/3)
  let Tcrit512 := ops.pow (Tcrit_air * Tcrit_h2o) (5/12)
  let Tcrit12 := ops.sqrt (Tcrit_air * Tcrit_h2o)
  let Mmix := ops.sqrt (1 / M_AIR + 1 / M_H2O)
  let Patm := Pair / 1013.25
  a * ops.pow (Tair / Tcrit12) b * Pcrit13 * Tcrit512 * Mmix / Patm * 1e-4

/-- heat of evaporation, J/(kg K). -/
def evap (Tair : ℚ) : ℚ :=
  (313.15 - Tair) / 30 * (-71100) + 2.4073e6

/-- atmospheric emissivity. -/
def emis_atm (ops : MathOps) (Tair rh : ℚ) : ℚ :=
  let e := rh * esat ops Tair 0
  0.575 * ops.pow e 0.143

/-- convective heat transfer coefficient for a long cylinder in cross flow,
W/(m2 K). -/
def h_cylinder_in_air (ops : MathOps) (diameter length Tair Pair speed : ℚ) : ℚ :=
  let a : ℚ := 0.56
  let b : ℚ := 0.281
  let c : ℚ := 0.4
  let density := Pair * 100 / (R_AIR * Tair)
  let Re := speed * density * diameter / viscosity ops Tair
  let Nu := b * ops.pow Re (1 - c) * ops.pow Pr (1 - a)
  Nu * thermal_cond ops Tair / diameter

/-- convective heat transfer coefficient for flow around a sphere, W/(m2 K). -/
def h_sphere_in_air (ops : MathOps) (diameter Tair Pair speed : ℚ) : ℚ :=
  let density := Pair * 100 / (R_AIR * Tair)
  let Re := speed * density * diameter / viscosity ops Tair
  let Nu := 2.0 + 0.6 * ops.sqrt Re * ops.pow Pr 0.3333
  Nu * thermal_cond ops Tair / diameter

/-- Result of one of the damped fixed point loops: the last computed new
temperature estimate, the convergence flag, and the number of loop body
executions performed. -/
structure LoopOut where
  val : ℚ
  converged : Bool
  iters : ℕ
  deriving DecidableEq

/-- One body execution of the do-while loop of Twb.  Returns the newly
computed Twb_new, the convergence test outcome for this iteration, and the
damped next value of Twb_prev.  The C code computes Fatm inside the
rad == 1 branch; binding it outside the branch and consulting it only there
is value-equivalent because the expression has no side effects. -/
def twbStep (ops : MathOps) (Tair Tsfc rh Pair speed solar fdir cza sza eair : ℚ)
    (rad : ℤ) (Twb_prev : ℚ) : ℚ × Bool × ℚ :=
  let a : ℚ := 0.56
  let Tref := 0.5 * (Twb_prev + Tair)
  let Fatm := STEFANB * EMIS_WICK *
        (0.5 * (emis_atm ops Tair rh * ops.pow Tair 4 + EMIS_SFC * ops.pow Tsfc 4)
          - ops.pow Twb_prev 4)
      + (1 - ALB_WICK) * solar *
        ((1 - fdir) * (1 + 0.25 * D_WICK / L_WICK)
          + fdir * ((ops.tan sza / PI) + 0.25 * D_WICK / L_WICK) + ALB_SFC)
  let heat := if rad = 1 then Fatm / h_cylinder_in_air ops D_WICK L_WICK Tref Pair speed else 0
  let ewick := esat ops Twb_prev 0
  let density := Pair * 100 / (R_AIR * Tref)
  let Sc := viscosity ops Tref / (density * diffusivity ops Tref Pair)
  let Twb_new := Tair - evap Tref / RATIO * (ewick - eair) / (Pair - ewick) * ops.pow (Pr / Sc) a + heat
  let converged := if cfabs (Twb_new - Twb_prev) < CONVERGENCE then true else false
  (Twb_new, converged, 0.9 * Twb_prev + 0.1 * Twb_new)

/-- The do-while loop of Twb.  The fuel argument is the number of loop body
executions still allowed by the iteration counter: the loop is entered with
fuel = MAX_ITER and the C continuation condition (not converged and
iter < MAX_ITER) corresponds to recursing while the remaining fuel after the
current body execution is nonzero. -/
def twbLoop (ops : MathOps) (Tair Tsfc rh Pair speed solar fdir cza sza eair : ℚ)
    (rad : ℤ) : ℕ → ℚ → LoopOut
  | 0, prev => ⟨prev, false, 0⟩
  | fuel + 1, prev =>
      let s := twbStep ops Tair Tsfc rh Pair speed solar fdir cza sza eair rad prev
      if s.2.1 = true then ⟨s.1, true, 1⟩
      else if fuel = 0 then ⟨s.1, false, 1⟩
      else
        let r := twbLoop ops Tair Tsfc rh Pair speed solar fdir cza sza eair rad fuel s.2.2
        ⟨r.val, r.converged, r.iters + 1⟩

/-- The iteration state of Twb just before the loop together with the loop
outcome. -/
def twbRun (ops : MathOps) (Tair rh Pair speed solar fdir cza : ℚ) (rad : ℤ) : LoopOut :=
  let Tsfc := Tair
  let sza := ops.acos cza
  let eair := rh * esat ops Tair 0
  let Tdew := dew_point ops eair 0
  twbLoop ops Tair Tsfc rh Pair speed solar fdir cza sza eair rad MAX_ITER Tdew

/-- Twb: the natural (rad = 1) or psychrometric (rad = 0) wet bulb
temperature, degC, or -9999 on failure to converge. -/
def Twb (ops : MathOps) (Tair rh Pair speed solar fdir cza : ℚ) (rad : ℤ) : ℚ :=
  let r := twbRun ops Tair rh Pair speed solar fdir cza rad
  if r.converged = true then r.val - 273.15 else -9999

/-- One body execution of the do-while loop of Tglobe. -/
def tglobeStep (ops : MathOps) (Tair Tsfc rh Pair speed solar fdir cza d_globe : ℚ)
    (Tglobe_prev : ℚ) : ℚ × Bool × ℚ :=
  let Tref := 0.5 * (Tglobe_prev + Tair)
  let h := h_sphere_in_air ops d_globe Tref Pair speed
  let Tglobe_new := ops.pow
      (0.5 * (emis_atm ops Tair rh * ops.pow Tair 4 + EMIS_SFC * ops.pow Tsfc 4)
        - h / (STEFANB * EMIS_GLOBE) * (Tglobe_prev - Tair)
        + solar / (2 * STEFANB * EMIS_GLOBE) * (1 - ALB_GLOBE)
          * (fdir * (1 / (2 * cza) - 1) + 1 + ALB_SFC))
      0.25
  let converged := if cfabs (Tglobe_new - Tglobe_prev) < CONVERGENCE then true else false
  (Tglobe_new, converged, 0.9 * Tglobe_prev + 0.1 * Tglobe_new)

/-- The do-while loop of Tglobe, with the same fuel discipline as twbLoop. -/
def tglobeLoop (ops : MathOps) (Tair Tsfc rh Pair speed solar fdir cza d_globe : ℚ) :
    ℕ → ℚ → LoopOut
  | 0, prev => ⟨prev, false, 0⟩
  | fuel + 1, prev =>
      let s := tglobeStep ops Tair Tsfc rh Pair speed solar fdir cza d_globe prev
      if s.2.1 = true then ⟨s.1, true, 1⟩
      else if fuel = 0 then ⟨s.1, false, 1⟩
      else
        let r := tglobeLoop ops Tair Tsfc rh Pair speed solar fdir cza d_globe fuel s.2.2
        ⟨r.val, r.converged, r.iters + 1⟩

/-- The iteration state of Tglobe just before the loop (globe diameter
defaulted, first guess is the air temperature) together with the loop
outcome. -/
def tglobeRun (ops : MathOps) (Tair rh Pair speed solar fdir cza d_globe : ℚ) : LoopOut :=
  let d2 := if d_globe = 0 then D_GLOBE else d_globe
  let Tsfc := Tair
  tglobeLoop ops Tair Tsfc rh Pair speed solar fdir cza d2 MAX_ITER Tair

/-- Tglobe: the globe temperature, degC, or -9999 on failure to converge. -/
def Tglobe (ops : MathOps) (Tair rh Pair speed solar fdir cza d_globe : ℚ) : ℚ :=
  let r := tglobeRun ops Tair rh Pair speed solar fdir cza d_globe
  if r.converged = true then r.val - 273.15 else -9999

/-- daynum: sequential daynumber of a calendar date in a Gregorian year,
or -1 if the year is out of bounds. -/
def daynum (year month day : ℤ) : ℤ :=
  let begmonth : List ℤ := [0, 0, 31, 59, 90, 120, 151, 181, 212, 243, 273, 304, 334]
  if year < 1 then -1
  else
    let leapyr : ℤ :=
      if (cmod year 4 = 0 ∧ cmod year 100 ≠ 0) ∨ cmod year 400 = 0 then 1 else 0
    let dnum := begmonth.getD month.toNat 0 + day
    if leapyr = 1 ∧ month > 2 then dnum + 1 else dnum

/-- The six output quantities written through pointers by solarposition.
These double locals are uninitialized in the caller, so the embedding threads
an explicit record of initial (indeterminate) values that survives when
solarposition rejects its inputs without writing. -/
structure SolarOut where
  ap_ra : ℚ
  ap_dec : ℚ
  altitude : ℚ
  refraction : ℚ
  azimuth : ℚ
  distance : ℚ
  deriving DecidableEq

/-- solarposition: apparent solar coordinates from the low precision formulas
of the Astronomical Almanac 1990.  Returns (-1, g) when an input parameter is
out of bounds (g, the initial values, left unwritten) and (0, outputs)
otherwise. -/
def solarposition (ops : MathOps) (year month : ℤ) (day days_1900 latitude longitude : ℚ)
    (g : SolarOut) : ℤ × SolarOut :=
  let pressure : ℚ := 1013.25
  let temp : ℚ := 15.0
  -- check latitude and longitude for proper range before calculating dates
  if latitude < -90 ∨ latitude > 90 ∨ longitude < -180 ∨ longitude > 180 then (-1, g)
  else if year ≠ 0 ∧ (year < 1950 ∨ year > 2049) then (-1, g)
  else if year ≠ 0 ∧ month ≠ 0 ∧ (month < 1 ∨ month > 12 ∨ day < 0 ∨ day > 33) then (-1, g)
  else if year ≠ 0 ∧ month = 0 ∧ (day < 0 ∨ day > 368) then (-1, g)
  else if year = 0 ∧ (days_1900 < 18262 ∨ days_1900 > 54788) then (-1, g)
  else
    let dju : ℚ × ℚ × ℚ :=   -- days_J2000, cent_J2000, ut
      if year ≠ 0 then
        let daynumber := if month ≠ 0 then daynum year month (ctrunc day) else ctrunc day
        let delta_years := year - 2000
        let delta_days0 := delta_years * 365 + cdiv delta_years 4 + daynumber
        let delta_days := if year > 2000 then delta_days0 + 1 else delta_days0
        let days_J2000 : ℚ := (delta_days : ℚ) - 1.5
        let cent_J2000 := days_J2000 / 36525
        let ut0 := cfrac day
        (days_J2000 + ut0, cent_J2000, ut0 * 24)
      else
        let days_J2000 : ℚ := days_1900 - 36525.5
        let ut0 := cfrac days_1900 * 24
        let cent_J2000 := ((ctrunc days_1900 : ℚ) - 36525.5) / 36525
        (days_J2000, cent_J2000, ut0)
    let days_J2000 := dju.1
    let cent_J2000 := dju.2.1
    let ut := dju.2.2
    let mean_anomaly := cfrac ((357.528 + 0.9856003 * days_J2000) / 360) * TWOPI
    let mean_longitude := cfrac ((280.460 + 0.9856474 * days_J2000) / 360) * TWOPI
    let mean_obliquity := (23.439 - 4.0e-7 * days_J2000) * DEG_RAD
    let ecliptic_long := (1.915 * ops.sin mean_anomaly + 0.020 * ops.sin (2 * mean_anomaly))
        * DEG_RAD + mean_longitude
    let distance := 1.00014 - 0.01671 * ops.cos mean_anomaly - 0.00014 * ops.cos (2 * mean_anomaly)
    let ap_ra0 := ops.atan2 (ops.cos mean_obliquity * ops.sin ecliptic_long) (ops.cos ecliptic_long)
    let ap_ra1 := if ap_ra0 < 0 then ap_ra0 + TWOPI else ap_ra0
    let ap_ra := cfrac (ap_ra1 / TWOPI) * 24
    let ap_dec := ops.asin (ops.sin mean_obliquity * ops.sin ecliptic_long)
    let gmst0h0 := 24110.54841 + cent_J2000 * (8640184.812866 + cent_J2000
        * (0.093104 - cent_J2000 * 6.2e-6))
    let gmst0h1 := cfrac (gmst0h0 / 3600 / 24) * 24
    let gmst0h := if gmst0h1 < 0 then gmst0h1 + 24 else gmst0h1
    let lmst0 := gmst0h + ut * 1.00273790934 + longitude / 15
    let lmst1 := cfrac (lmst0 / 24) * 24
    let lmst := if lmst1 < 0 then lmst1 + 24 else lmst1
    let local_ha0 := lmst - ap_ra
    let local_ha1 := if local_ha0 < -12 then local_ha0 + 24
      else if local_ha0 > 12 then local_ha0 - 24 else local_ha0
    let latitude2 := latitude * DEG_RAD
    let local_ha := local_ha1 / 24 * TWOPI
    let cos_apdec := ops.cos ap_dec
    let sin_apdec := ops.sin ap_dec
    let cos_lat := ops.cos latitude2
    let sin_lat := ops.sin latitude2
    let cos_lha := ops.cos local_ha
    let altitude := ops.asin (sin_apdec * sin_lat + cos_apdec * cos_lha * cos_lat)
    let cos_alt := ops.cos altitude
    let tan_alt := if cfabs altitude < 1.57079615 then ops.tan altitude else 6.0e6
    let cos_az := (sin_apdec * cos_lat - cos_apdec * cos_lha * sin_lat) / cos_alt
    let sin_az := -(cos_apdec * ops.sin local_ha / cos_alt)
    let azimuth0 := ops.acos cos_az
    let azimuth1 := if ops.atan2 sin_az cos_az < 0 then TWOPI - azimuth0 else azimuth0
    let ap_dec_deg := ap_dec * RAD_DEG
    let altitude_deg := altitude * RAD_DEG
    let azimuth := azimuth1 * RAD_DEG
    let refraction :=
      if altitude_deg < -1 ∨ tan_alt = 6.0e6 then 0
      else if altitude_deg < 19.225 then
        (0.1594 + altitude_deg * (0.0196 + 0.00002 * altitude_deg)) * pressure
          / ((1 + altitude_deg * (0.505 + 0.0845 * altitude_deg)) * (273 + temp))
      else 0.00452 * (pressure / (273 + temp)) / tan_alt
    -- refraction correction added to the altitude (Liljegren modification)
    let altitude_fin := altitude_deg + refraction
    (0, { ap_ra := ap_ra, ap_dec := ap_dec_deg, altitude := altitude_fin,
          refraction := refraction, azimuth := azimuth, distance := distance })

/-- Outputs of calc_solar_parameters.  ret is the value of the C return
statement.  toasolar and normsolar record the corresponding locals of the C
function for specification purposes: toasolar after the below-horizon reset,
and the value min(solar / toasolar, NORMSOLAR_MAX) that the C code assigns to
normsolar inside the toasolar > 0 branch (division by a zero toasolar is the
zero rational in this embedding, so the recorded normsolar is 0 whenever that
branch is not taken). -/
structure SolParOut where
  ret : ℤ
  solar : ℚ
  cza : ℚ
  fdir : ℚ
  toasolar : ℚ
  normsolar : ℚ

/-- calc_solar_parameters: cosine solar zenith angle, adjusted irradiance and
direct beam fraction.  gsun carries the initial values of the uninitialized
locals written by solarposition; gdist and gcza carry the initial values used
when the spa branch fails and writes neither cza nor soldist. -/
def calc_solar_parameters (ops : MathOps) (year month : ℤ) (day : ℚ) (lat lon : ℚ)
    (use_spa : ℤ) (solar : ℚ) (gsun : SolarOut) (gdist gcza : ℚ) : SolParOut :=
  let czaSoldist : ℚ × ℚ :=
    if use_spa = 0 then
      let s := solarposition ops year month day 0 lat lon gsun
      (ops.cos ((90 - s.2.altitude) * DEG_RAD), s.2.distance)
    else
      let seconds0 := cround ((day - (ctrunc day : ℚ)) * 86400)
      let seconds := cmod seconds0 3600
      let spa : SpaIn :=
        { latitude := lat, longitude := lon, year := year, month := month,
          day := ctrunc day, hour := ctrunc ((seconds0 : ℚ) / 3600),
          minute := ctrunc ((seconds : ℚ) / 60), second := cmod seconds 60,
          pressure := 1010, temperature := 10, elevation := 0,
          delta_t := 0, delta_ut1 := 0 }
      let r := ops.spaCalc spa
      if r.result = 0 then (ops.cos (r.zenith * DEG_RAD), r.r) else (gcza, gdist)
  let cza := czaSoldist.1
  let soldist := czaSoldist.2
  let toasolar0 := SOLAR_CONST * cmax 0 cza / (soldist * soldist)
  let toasolar := if cza < CZA_MIN then 0 else toasolar0
  let normsolar := cmin (solar / toasolar) NORMSOLAR_MAX
  let solarFdir : ℚ × ℚ :=
    if toasolar > 0 then
      (normsolar * toasolar,
        if normsolar > 0 then
          cmax (cmin (ops.exp (3 - 1.34 * normsolar - 1.65 / normsolar)) 0.9) 0
        else 0)
    else (0, 0)
  { ret := 0, solar := solarFdir.1, cza := cza, fdir := solarFdir.2,
    toasolar := toasolar, normsolar := normsolar }

/-- est_wind_speed: 2-m wind speed estimate for all stability conditions,
power law with a stability dependent exponent, floored at min_speed. -/
def est_wind_speed (ops : MathOps) (speed zspeed : ℚ) (stability_class urban : ℤ)
    (min_speed : ℚ) : ℚ :=
  let urban_exp : List ℚ := [0.15, 0.15, 0.20, 0.25, 0.30, 0.30]
  let rural_exp : List ℚ := [0.07, 0.07, 0.10, 0.15, 0.35, 0.55]
  let exponent := if urban ≠ 0 then urban_exp.getD (stability_class - 1).toNat 0
    else rural_exp.getD (stability_class - 1).toNat 0
  let est_speed := speed * ops.pow (REF_HEIGHT / zspeed) exponent
  cmax est_speed min_speed

/-- stab_srdt: stability class estimate from the day/night flag, wind speed,
solar irradiance and vertical temperature gradient, via the fixed lsrdt
lookup table. -/
def stab_srdt (daytime : ℤ) (speed solar dT : ℚ) : ℤ :=
  let lsrdt : List (List ℤ) :=
    [[1, 1, 2, 4, 0, 5, 6, 0],
     [1, 2, 3, 4, 0, 5, 6, 0],
     [2, 2, 3, 4, 0, 4, 4, 0],
     [3, 3, 4, 4, 0, 0, 0, 0],
     [3, 4, 4, 4, 0, 0, 0, 0],
     [0, 0, 0, 0, 0, 0, 0, 0]]
  let ij : ℕ × ℕ :=
    if daytime ≠ 0 then
      let j : ℕ := if solar ≥ 925 then 0 else if solar ≥ 675 then 1
        else if solar ≥ 175 then 2 else 3
      let i : ℕ := if speed ≥ 6 then 4 else if speed ≥ 5 then 3
        else if speed ≥ 3 then 2 else if speed ≥ 2 then 1 else 0
      (i, j)
    else
      let j : ℕ := if dT ≥ 0 then 6 else 5
      let i : ℕ := if speed ≥ 2.5 then 2 else if speed ≥ 2 then 1 else 0
      (i, j)
  (lsrdt.getD ij.1 []).getD ij.2 0

/-- Output record of calc_wbgt: the five pointer outputs and the int return
value. -/
structure WbgtOut where
  est_speed : ℚ
  solar_adj : ℚ
  Tg : ℚ
  Tnwb : ℚ
  Tpsy : ℚ
  Twbg : ℚ
  ret : ℤ

/-- calc_wbgt: the outdoor wet bulb globe temperature orchestrator.  gsun,
gdist and gcza carry the initial values of locals that the C code may leave
unwritten (see calc_solar_parameters). -/
def calc_wbgt (ops : MathOps) (year month day hour minute second gmt avg : ℤ)
    (lat lon solar pres Tair relhum speed zspeed dT : ℚ) (urban use_spa : ℤ)
    (min_speed d_globe : ℚ) (gsun : SolarOut) (gdist gcza : ℚ) : WbgtOut :=
  -- set min speed as maximum of input value and MIN_SPEED
  let min_speed2 := cmax min_speed MIN_SPEED
  -- convert time to GMT and center in avg period
  let hour_gmt : ℚ := (hour : ℚ) - (gmt : ℚ)
      + ((minute : ℚ) - 0.5 * (avg : ℚ) + (second : ℚ) / 60) / 60
  let dday : ℚ := (day : ℚ) + hour_gmt / 24
  let sp := calc_solar_parameters ops year month dday lat lon use_spa solar gsun gdist gcza
  let solar2 := sp.solar
  let cza := sp.cza
  let fdir := sp.fdir
  -- estimate the wind speed, if necessary
  let est := if zspeed ≠ REF_HEIGHT then
      let daytime : ℤ := if cza > 0 then 1 else 0
      let stability_class := stab_srdt daytime speed solar2 dT
      est_wind_speed ops speed zspeed stability_class urban min_speed2
    else cmax speed min_speed2
  let speed2 := est
  -- set default d_globe size if not defined
  let d_globe2 := if d_globe = 0 then D_GLOBE else d_globe
  -- unit conversions
  let tk := Tair + 273.15
  let rh := 0.01 * relhum
  let Tg := Tglobe ops tk rh pres speed2 solar2 fdir cza d_globe2
  let Tnwb := Twb ops tk rh pres speed2 solar2 fdir cza 1
  let Tpsy := Twb ops tk rh pres speed2 solar2 fdir cza 0
  let Twbg := 0.1 * Tair + 0.2 * Tg + 0.7 * Tnwb
  { est_speed := est, solar_adj := solar2, Tg := Tg, Tnwb := Tnwb, Tpsy := Tpsy,
    Twbg := if Tg = -9999 ∨ Tnwb = -9999 then -9999 else Twbg,
    ret := if Tg = -9999 ∨ Tnwb = -9999 then -1 else 0 }

/-!
Concrete interpretations of the abstract MathOps parameters, used to exhibit
evaluated runs of the embedded program.  The structural theorems below hold
for every interpretation; these particular ones are chosen to make individual
solver runs converge on the first iteration or provably miss the convergence
tolerance on every one of the 50 allowed iterations.
-/

/-- All-zero record of solarposition outputs, standing for indeterminate
initial values of the uninitialized C locals. -/
def g0 : SolarOut := ⟨0, 0, 0, 0, 0, 0⟩

/-- Indeterminate initial values with a nonzero distance slot. -/
def g1 : SolarOut := ⟨0, 0, 0, 0, 0, 1⟩

/-- Interpretation sending every transcendental call to 0. -/
def zOps : MathOps :=
  { sin := fun _ => 0, cos := fun _ => 0, tan := fun _ => 0, asin := fun _ => 0,
    acos := fun _ => 0, atan2 := fun _ _ => 0, exp := fun _ => 0, log := fun _ => 0,
    sqrt := fun _ => 0, pow := fun _ _ => 0, spaCalc := fun _ => ⟨0, 0, 0⟩ }

/-- Interpretation sending every transcendental call to 1. -/
def oOps : MathOps :=
  { sin := fun _ => 1, cos := fun _ => 1, tan := fun _ => 1, asin := fun _ => 1,
    acos := fun _ => 1, atan2 := fun _ _ => 1, exp := fun _ => 1, log := fun _ => 1,
    sqrt := fun _ => 1, pow := fun _ _ => 1, spaCalc := fun _ => ⟨1, 1, 1⟩ }

/-- The value of log at which dew_point returns exactly 0 K:
240.97 * convL / (17.502 - convL) = -273.15. -/
def convL : ℚ := (273.15 * 17.502) / 32.18

/-- Interpretation under which all three solver runs of calc_wbgt converge on
their first iteration when the input dry bulb temperature is -273.15 degC
(0 K): the dew point seed and the air temperature seed both equal 0 and every
iterate is 0. -/
def cOps : MathOps :=
  { zOps with log := fun _ => convL }

/-- 1.004 * 6.1121: the value of esat under an interpretation with exp = 1. -/
def exE : ℚ := 1.004 * 6.1121

/-- Value for pow at exponent 0.56 that makes the wet bulb fixed point map an
exact translation: the prev-derivative of the evaporation term becomes -1, so
|Twb_new - Twb_prev| is the same nonzero constant on every iteration. -/
def exK : ℚ := -( RATIO * (1000 - exE)) / (1185 * (exE / 2))

/-- Interpretation under which both solver loops run all 50 iterations
without ever meeting the convergence tolerance (for the inputs used in the
witnesses below). -/
def fOps : MathOps :=
  { sin := fun _ => 0, cos := fun _ => 0, tan := fun _ => 0, asin := fun _ => 0,
    acos := fun _ => 0, atan2 := fun _ _ => 0, exp := fun _ => 1, log := fun _ => 0,
    sqrt := fun _ => 1,
    pow := fun _ e => if e = 0.56 then exK else if e = 0.6 then 1
      else if e = 0.44 then 1 else 0,
    spaCalc := fun _ => ⟨0, 0, 0⟩ }

/-- The constant gap |Twb_new - Twb_prev| of the psychrometric iteration
under xOps at 0 K air temperature. -/
def exS2 : ℚ := 3330269 / 2370

/-- The cylinder heat transfer coefficient at the first wet bulb iteration
(Tref = 136.575 K, Pair = 1000 mb, speed = 1 m/s) under fOps. -/
def exH2 : ℚ := h_cylinder_in_air fOps D_WICK L_WICK (5463/40) 1000 1

/-- Value for pow at exponent 4 that makes the radiative heating term of the
natural wet bulb solve cancel the constant gap exactly on the first
iteration, so the rad = 1 solve converges while the rad = 0 solve does not. -/
def exC4 : ℚ := exS2 * exH2 / (STEFANB * EMIS_WICK * 0.5005)

/-- Interpretation separating the three solver runs of calc_wbgt at
Tair = -273.15 degC: the globe solve and the natural wet bulb solve converge
on the first iteration while the psychrometric wet bulb solve misses the
tolerance on all 50 iterations and fails. -/
def xOps : MathOps :=
  { fOps with
    pow := fun _ e => if e = 0.56 then exK else if e = 0.6 then 1
      else if e = 0.44 then 1 else if e = 4 then exC4 else 0 }

/-!
Helper lemmas about the C max and min macros.
-/

theorem le_cmax_right (a b : ℚ) : b ≤ cmax a b := by
  unfold cmax
  split_ifs with h
  · exact le_of_lt h
  · exact le_refl b

theorem cmax_eq_max (a b : ℚ) : cmax a b = max a b := by
  unfold cmax
  rcases lt_or_ge b a with h | h
  · rw [if_pos h, max_eq_left h.le]
  · rw [if_neg (not_lt.mpr h), max_eq_right h]

theorem cmax_clamp_le (e c : ℚ) (hc : 0 ≤ c) : cmax (cmin e c) 0 ≤ c := by
  unfold cmax cmin
  split_ifs <;> linarith

theorem cmin_pos_left (a b : ℚ) (h : 0 < cmin a b) : 0 < a := by
  unfold cmin at h
  split_ifs at h with hab
  · exact h
  · linarith [not_lt.mp hab]

/-!
Iteration count bounds for the two fixed point loops.
-/

theorem twbLoop_iters_le (ops : MathOps) (Tair Tsfc rh Pair speed solar fdir cza sza eair : ℚ)
    (rad : ℤ) : ∀ (fuel : ℕ) (prev : ℚ),
    (twbLoop ops Tair Tsfc rh Pair speed solar fdir cza sza eair rad fuel prev).iters ≤ fuel := by
  intro fuel
  induction fuel with
  | zero => intro prev; simp [twbLoop]
  | succ n ih =>
      intro prev
      simp only [twbLoop]
      split_ifs
      · simp
      · simp
      · exact Nat.succ_le_succ (ih _)

theorem tglobeLoop_iters_le (ops : MathOps) (Tair Tsfc rh Pair speed solar fdir cza d_globe : ℚ) :
    ∀ (fuel : ℕ) (prev : ℚ),
    (tglobeLoop ops Tair Tsfc rh Pair speed solar fdir cza d_globe fuel prev).iters ≤ fuel := by
  intro fuel
  induction fuel with
  | zero => intro prev; simp [tglobeLoop]
  | succ n ih =>
      intro prev
      simp only [tglobeLoop]
      split_ifs
      · simp
      · simp
      · exact Nat.succ_le_succ (ih _)

/-!
Pointwise values of the concrete interpretations, stated so that rewriting
can evaluate applications of their fields without unfolding the records.
-/

theorem zOps_sin (q : ℚ) : zOps.sin q = 0 := rfl
theorem zOps_cos (q : ℚ) : zOps.cos q = 0 := rfl
theorem zOps_tan (q : ℚ) : zOps.tan q = 0 := rfl
theorem zOps_asin (q : ℚ) : zOps.asin q = 0 := rfl
theorem zOps_acos (q : ℚ) : zOps.acos q = 0 := rfl
theorem zOps_atan2 (q r : ℚ) : zOps.atan2 q r = 0 := rfl
theorem zOps_exp (q : ℚ) : zOps.exp q = 0 := rfl
theorem zOps_log (q : ℚ) : zOps.log q = 0 := rfl
theorem zOps_sqrt (q : ℚ) : zOps.sqrt q = 0 := rfl
theorem zOps_pow (q r : ℚ) : zOps.pow q r = 0 := rfl

theorem oOps_cos (q : ℚ) : oOps.cos q = 1 := rfl
theorem oOps_exp (q : ℚ) : oOps.exp q = 1 := rfl

theorem fOps_sin (q : ℚ) : fOps.sin q = 0 := rfl
theorem fOps_cos (q : ℚ) : fOps.cos q = 0 := rfl
theorem fOps_tan (q : ℚ) : fOps.tan q = 0 := rfl
theorem fOps_acos (q : ℚ) : fOps.acos q = 0 := rfl
theorem fOps_exp (q : ℚ) : fOps.exp q = 1 := rfl
theorem fOps_log (q : ℚ) : fOps.log q = 0 := rfl
theorem fOps_sqrt (q : ℚ) : fOps.sqrt q = 1 := rfl
theorem fOps_pow (q r : ℚ) : fOps.pow q r =
    (if r = 0.56 then exK else if r = 0.6 then 1 else if r = 0.44 then 1 else 0) := rfl

theorem xOps_sin (q : ℚ) : xOps.sin q = 0 := rfl
theorem xOps_cos (q : ℚ) : xOps.cos q = 0 := rfl
theorem xOps_tan (q : ℚ) : xOps.tan q = 0 := rfl
theorem xOps_acos (q : ℚ) : xOps.acos q = 0 := rfl
theorem xOps_exp (q : ℚ) : xOps.exp q = 1 := rfl
theorem xOps_log (q : ℚ) : xOps.log q = 0 := rfl
theorem xOps_sqrt (q : ℚ) : xOps.sqrt q = 1 := rfl
theorem xOps_pow (q r : ℚ) : xOps.pow q r =
    (if r = 0.56 then exK else if r = 0.6 then 1 else if r = 0.44 then 1
      else if r = 4 then exC4 else 0) := rfl

/-!
Claims.
-/

/-- C9: calc_solar_parameters returns 0 for every input: the -1 domain error
code of solarposition is discarded (the C code never examines it), so neither
calc_solar_parameters nor calc_wbgt receives any error indication for
out-of-range latitude, longitude, year or day, and the accompanying outputs
are used anyway. -/
theorem calc_solar_parameters_ret_always_zero (ops : MathOps) (year month : ℤ)
    (day lat lon : ℚ) (use_spa : ℤ) (solar : ℚ) (gsun : SolarOut) (gdist gcza : ℚ) :
    (calc_solar_parameters ops year month day lat lon use_spa solar gsun gdist gcza).ret = 0 :=
  rfl

/-- C4: for every daytime flag, wind speed, solar irradiance and temperature
gradient, stab_srdt returns a stability class between 1 and 6, so the zero
entries of the lsrdt table are unreachable and the index stability_class - 1
used by est_wind_speed into its 6-entry exponent tables is in bounds. -/
theorem stab_srdt_class_in_range (daytime : ℤ) (speed solar dT : ℚ) :
    1 ≤ stab_srdt daytime speed solar dT ∧ stab_srdt daytime speed solar dT ≤ 6 ∧
    (stab_srdt daytime speed solar dT - 1).toNat < 6 := by
  simp only [stab_srdt]
  split_ifs <;> decide

/-- C5: the estimated wind speed written by calc_wbgt is at least
max(min_speed, 0.13), on both the power law extrapolation path and the direct
flooring path. -/
theorem calc_wbgt_est_speed_ge (ops : MathOps) (year month day hour minute second gmt avg : ℤ)
    (lat lon solar pres Tair relhum speed zspeed dT : ℚ) (urban use_spa : ℤ)
    (min_speed d_globe : ℚ) (gsun : SolarOut) (gdist gcza : ℚ) :
    max min_speed 0.13 ≤
      (calc_wbgt ops year month day hour minute second gmt avg lat lon solar pres Tair
        relhum speed zspeed dT urban use_spa min_speed d_globe gsun gdist gcza).est_speed := by
  rw [show (0.13 : ℚ) = MIN_SPEED from rfl, ← cmax_eq_max]
  simp only [calc_wbgt]
  split_ifs <;>
    first
    | (simp only [est_wind_speed]; exact le_cmax_right _ _)
    | exact le_cmax_right _ _

/-- C1: when neither the globe solve nor the natural wet bulb solve reports
the -9999 failure sentinel, calc_wbgt returns the composite index
Twbg = 0.1 Tair + 0.2 Tg + 0.7 Tnwb built from the returned globe and natural
wet bulb temperatures. -/
theorem calc_wbgt_composite_weighted_sum (ops : MathOps)
    (year month day hour minute second gmt avg : ℤ)
    (lat lon solar pres Tair relhum speed zspeed dT : ℚ) (urban use_spa : ℤ)
    (min_speed d_globe : ℚ) (gsun : SolarOut) (gdist gcza : ℚ)
    (hTg : (calc_wbgt ops year month day hour minute second gmt avg lat lon solar pres Tair
      relhum speed zspeed dT urban use_spa min_speed d_globe gsun gdist gcza).Tg ≠ -9999)
    (hTnwb : (calc_wbgt ops year month day hour minute second gmt avg lat lon solar pres Tair
      relhum speed zspeed dT urban use_spa min_speed d_globe gsun gdist gcza).Tnwb ≠ -9999) :
    (calc_wbgt ops year month day hour minute second gmt avg lat lon solar pres Tair
      relhum speed zspeed dT urban use_spa min_speed d_globe gsun gdist gcza).Twbg =
      0.1 * Tair
      + 0.2 * (calc_wbgt ops year month day hour minute second gmt avg lat lon solar pres Tair
          relhum speed zspeed dT urban use_spa min_speed d_globe gsun gdist gcza).Tg
      + 0.7 * (calc_wbgt ops year month day hour minute second gmt avg lat lon solar pres Tair
          relhum speed zspeed dT urban use_spa min_speed d_globe gsun gdist gcza).Tnwb := by
  simp only [calc_wbgt] at hTg hTnwb ⊢
  rw [if_neg (by push_neg; exact ⟨hTg, hTnwb⟩)]

/-- C3 (amended): if the globe solve or the natural wet bulb solve returns
the -9999 sentinel, calc_wbgt forces Twbg to -9999 and returns -1.  (The
original claim also listed the psychrometric solve among the failure
triggers; the code does not check it, see the counterexample.) -/
theorem calc_wbgt_failure_propagation (ops : MathOps)
    (year month day hour minute second gmt avg : ℤ)
    (lat lon solar pres Tair relhum speed zspeed dT : ℚ) (urban use_spa : ℤ)
    (min_speed d_globe : ℚ) (gsun : SolarOut) (gdist gcza : ℚ)
    (h : (calc_wbgt ops year month day hour minute second gmt avg lat lon solar pres Tair
        relhum speed zspeed dT urban use_spa min_speed d_globe gsun gdist gcza).Tg = -9999 ∨
      (calc_wbgt ops year month day hour minute second gmt avg lat lon solar pres Tair
        relhum speed zspeed dT urban use_spa min_speed d_globe gsun gdist gcza).Tnwb = -9999) :
    (calc_wbgt ops year month day hour minute second gmt avg lat lon solar pres Tair
      relhum speed zspeed dT urban use_spa min_speed d_globe gsun gdist gcza).Twbg = -9999 ∧
    (calc_wbgt ops year month day hour minute second gmt avg lat lon solar pres Tair
      relhum speed zspeed dT urban use_spa min_speed d_globe gsun gdist gcza).ret = -1 := by
  simp only [calc_wbgt] at h ⊢
  exact ⟨if_pos h, if_pos h⟩

/-- C2: both damped fixed point loops execute at most 50 loop body
iterations (and therefore terminate), and a solve whose loop ends without
the convergence flag set returns the sentinel -9999 instead of a
temperature. -/
theorem solver_iteration_cap (ops : MathOps) (Tair rh Pair speed solar fdir cza : ℚ)
    (rad : ℤ) (d_globe : ℚ) :
    (twbRun ops Tair rh Pair speed solar fdir cza rad).iters ≤ 50 ∧
    (tglobeRun ops Tair rh Pair speed solar fdir cza d_globe).iters ≤ 50 ∧
    ((twbRun ops Tair rh Pair speed solar fdir cza rad).converged = false →
      Twb ops Tair rh Pair speed solar fdir cza rad = -9999) ∧
    ((tglobeRun ops Tair rh Pair speed solar fdir cza d_globe).converged = false →
      Tglobe ops Tair rh Pair speed solar fdir cza d_globe = -9999) := by
  refine ⟨?_, ?_, ?_, ?_⟩
  · simp only [twbRun]
    exact twbLoop_iters_le ops Tair Tair rh Pair speed solar fdir cza _ _ rad MAX_ITER _
  · simp only [tglobeRun]
    exact tglobeLoop_iters_le ops Tair Tair rh Pair speed solar fdir cza _ MAX_ITER _
  · intro h
    simp [Twb, h]
  · intro h
    simp [Tglobe, h]

/-- Helper for C10: the loop body of Twb with rad = 0 never consults the
radiative inputs solar, fdir and the zenith angle. -/
theorem twbStep_rad_zero (ops : MathOps) (Tair Tsfc rh Pair speed : ℚ)
    (solar fdir cza sza solar2 fdir2 cza2 sza2 eair prev : ℚ) :
    twbStep ops Tair Tsfc rh Pair speed solar fdir cza sza eair 0 prev =
      twbStep ops Tair Tsfc rh Pair speed solar2 fdir2 cza2 sza2 eair 0 prev := by
  simp only [twbStep]
  norm_num

/-- Helper for C10: the whole loop of Twb with rad = 0 is independent of
solar, fdir and the zenith angle. -/
theorem twbLoop_rad_zero (ops : MathOps) (Tair Tsfc rh Pair speed : ℚ)
    (solar fdir cza sza solar2 fdir2 cza2 sza2 eair : ℚ) :
    ∀ (fuel : ℕ) (prev : ℚ),
    twbLoop ops Tair Tsfc rh Pair speed solar fdir cza sza eair 0 fuel prev =
      twbLoop ops Tair Tsfc rh Pair speed solar2 fdir2 cza2 sza2 eair 0 fuel prev := by
  intro fuel
  induction fuel with
  | zero => intro prev; simp [twbLoop]
  | succ n ih =>
      intro prev
      simp only [twbLoop]
      rw [twbStep_rad_zero ops Tair Tsfc rh Pair speed solar fdir cza sza solar2 fdir2 cza2
        sza2 eair prev, ih]

/-- C10: the psychrometric wet bulb computation (rad = 0) is independent of
the radiative inputs: two Twb calls differing only in solar, fdir and cza
return identical results. -/
theorem twb_psychrometric_ignores_radiation (ops : MathOps) (Tair rh Pair speed : ℚ)
    (solar fdir cza solar2 fdir2 cza2 : ℚ) :
    Twb ops Tair rh Pair speed solar fdir cza 0 =
      Twb ops Tair rh Pair speed solar2 fdir2 cza2 0 := by
  simp only [Twb, twbRun]
  rw [twbLoop_rad_zero ops Tair Tair rh Pair speed solar fdir cza (ops.acos cza) solar2 fdir2
    cza2 (ops.acos cza2) (rh * esat ops Tair 0)]

/-- C7: whenever the computed cosine of the solar zenith angle is below
0.00873, calc_solar_parameters writes 0 for the adjusted solar irradiance
and 0 for the direct beam fraction. -/
theorem calc_solar_parameters_below_horizon (ops : MathOps) (year month : ℤ)
    (day lat lon : ℚ) (use_spa : ℤ) (solar : ℚ) (gsun : SolarOut) (gdist gcza : ℚ)
    (h : (calc_solar_parameters ops year month day lat lon use_spa solar
        gsun gdist gcza).cza < 0.00873) :
    (calc_solar_parameters ops year month day lat lon use_spa solar gsun gdist gcza).solar = 0 ∧
    (calc_solar_parameters ops year month day lat lon use_spa solar gsun gdist gcza).fdir = 0 := by
  simp only [calc_solar_parameters, CZA_MIN] at h ⊢
  rw [if_pos h]
  norm_num

/-- C8: solarposition returns -1 whenever latitude, longitude, year, day or
days_1900 violate the documented ranges; the latitude and longitude check is
first, so an invalid latitude or longitude yields -1 for arbitrary date
arguments, before any date arithmetic. -/
theorem solarposition_domain_validation (ops : MathOps) (year month : ℤ)
    (day days_1900 latitude longitude : ℚ) (g : SolarOut) :
    ((latitude < -90 ∨ latitude > 90 ∨ longitude < -180 ∨ longitude > 180) →
      (solarposition ops year month day days_1900 latitude longitude g).1 = -1) ∧
    (year ≠ 0 → (year < 1950 ∨ year > 2049) →
      (solarposition ops year month day days_1900 latitude longitude g).1 = -1) ∧
    (year ≠ 0 → month ≠ 0 → (month < 1 ∨ month > 12 ∨ day < 0 ∨ day > 33) →
      (solarposition ops year month day days_1900 latitude longitude g).1 = -1) ∧
    (year ≠ 0 → month = 0 → (day < 0 ∨ day > 368) →
      (solarposition ops year month day days_1900 latitude longitude g).1 = -1) ∧
    (year = 0 → (days_1900 < 18262 ∨ days_1900 > 54788) →
      (solarposition ops year month day days_1900 latitude longitude g).1 = -1) := by
  refine ⟨?_, ?_, ?_, ?_, ?_⟩
  · intro h
    simp only [solarposition]
    rw [if_pos h]
  · intro hy hr
    simp only [solarposition]
    by_cases h1 : latitude < -90 ∨ latitude > 90 ∨ longitude < -180 ∨ longitude > 180
    · rw [if_pos h1]
    · rw [if_neg h1, if_pos ⟨hy, hr⟩]
  · intro hy hm hd
    simp only [solarposition]
    by_cases h1 : latitude < -90 ∨ latitude > 90 ∨ longitude < -180 ∨ longitude > 180
    · rw [if_pos h1]
    · rw [if_neg h1]
      by_cases h2 : year ≠ 0 ∧ (year < 1950 ∨ year > 2049)
      · rw [if_pos h2]
      · rw [if_neg h2, if_pos ⟨hy, hm, hd⟩]
  · intro hy hm hd
    simp only [solarposition]
    by_cases h1 : latitude < -90 ∨ latitude > 90 ∨ longitude < -180 ∨ longitude > 180
    · rw [if_pos h1]
    · rw [if_neg h1]
      by_cases h2 : year ≠ 0 ∧ (year < 1950 ∨ year > 2049)
      · rw [if_pos h2]
      · rw [if_neg h2, if_neg (fun hc => hc.2.1 hm), if_pos ⟨hy, hm, hd⟩]
  · intro hy hd
    simp only [solarposition]
    by_cases h1 : latitude < -90 ∨ latitude > 90 ∨ longitude < -180 ∨ longitude > 180
    · rw [if_pos h1]
    · rw [if_neg h1, if_neg (fun hc => hc.1 hy), if_neg (fun hc => hc.1 hy),
        if_neg (fun hc => hc.1 hy), if_pos ⟨hy, hd⟩]

/-- C8 witness: latitude 91 and longitude 181 each produce the -1 domain
error. -/
theorem solarposition_domain_validation_witness :
    (solarposition zOps 2000 6 21 0 91 0 g0).1 = -1 ∧
    (solarposition zOps 2000 6 21 0 35 181 g0).1 = -1 :=
  ⟨(solarposition_domain_validation zOps 2000 6 21 0 91 0 g0).1
      (Or.inr (Or.inl (by norm_num))),
   (solarposition_domain_validation zOps 2000 6 21 0 35 181 g0).1
      (Or.inr (Or.inr (Or.inr (by norm_num))))⟩

/-- Helper for C6: the toasolar value after the below-horizon reset is never
negative. -/
theorem le_cmax_left (a b : ℚ) : a ≤ cmax a b := by
  unfold cmax
  split_ifs with h
  · exact le_refl a
  · exact le_of_not_lt h

theorem toasolar_nonneg (czaV sdV : ℚ) :
    (0:ℚ) ≤ if czaV < CZA_MIN then 0 else SOLAR_CONST * cmax 0 czaV / (sdV * sdV) := by
  split_ifs
  · exact le_refl 0
  · apply div_nonneg
    · exact mul_nonneg (by norm_num [SOLAR_CONST]) (le_cmax_left 0 czaV)
    · exact mul_self_nonneg sdV

/-- Helper for C6: the direct beam fraction branch of calc_solar_parameters,
stated over an arbitrary nonnegative toasolar value t. -/
theorem partition_fdir_aux (ops : MathOps) (solar t : ℚ) (h0 : 0 ≤ t) :
    (0 < cmin (solar / t) NORMSOLAR_MAX →
      (if t > 0 then (cmin (solar / t) NORMSOLAR_MAX * t,
          if cmin (solar / t) NORMSOLAR_MAX > 0 then
            cmax (cmin (ops.exp (3 - 1.34 * cmin (solar / t) NORMSOLAR_MAX
                - 1.65 / cmin (solar / t) NORMSOLAR_MAX)) 0.9) 0
          else 0)
        else ((0:ℚ), (0:ℚ))).2 =
        cmax (cmin (ops.exp (3 - 1.34 * cmin (solar / t) NORMSOLAR_MAX
            - 1.65 / cmin (solar / t) NORMSOLAR_MAX)) 0.9) 0) ∧
    (¬ 0 < cmin (solar / t) NORMSOLAR_MAX →
      (if t > 0 then (cmin (solar / t) NORMSOLAR_MAX * t,
          if cmin (solar / t) NORMSOLAR_MAX > 0 then
            cmax (cmin (ops.exp (3 - 1.34 * cmin (solar / t) NORMSOLAR_MAX
                - 1.65 / cmin (solar / t) NORMSOLAR_MAX)) 0.9) 0
          else 0)
        else ((0:ℚ), (0:ℚ))).2 = 0) ∧
    0 ≤ (if t > 0 then (cmin (solar / t) NORMSOLAR_MAX * t,
          if cmin (solar / t) NORMSOLAR_MAX > 0 then
            cmax (cmin (ops.exp (3 - 1.34 * cmin (solar / t) NORMSOLAR_MAX
                - 1.65 / cmin (solar / t) NORMSOLAR_MAX)) 0.9) 0
          else 0)
        else ((0:ℚ), (0:ℚ))).2 ∧
    (if t > 0 then (cmin (solar / t) NORMSOLAR_MAX * t,
          if cmin (solar / t) NORMSOLAR_MAX > 0 then
            cmax (cmin (ops.exp (3 - 1.34 * cmin (solar / t) NORMSOLAR_MAX
                - 1.65 / cmin (solar / t) NORMSOLAR_MAX)) 0.9) 0
          else 0)
        else ((0:ℚ), (0:ℚ))).2 ≤ 0.9 := by
  have hpos : 0 < cmin (solar / t) NORMSOLAR_MAX → 0 < t := by
    intro hn
    have hsp : 0 < solar / t := cmin_pos_left _ _ hn
    rcases eq_or_lt_of_le h0 with he | hl
    · rw [← he, div_zero] at hsp
      exact absurd hsp (lt_irrefl 0)
    · exact hl
  refine ⟨?_, ?_, ?_, ?_⟩
  · intro hn
    rw [if_pos (hpos hn)]
    exact if_pos hn
  · intro hn
    by_cases ht : t > 0
    · rw [if_pos ht]
      exact if_neg hn
    · rw [if_neg ht]
  · by_cases ht : t > 0
    · rw [if_pos ht]
      by_cases hn : cmin (solar / t) NORMSOLAR_MAX > 0
      · show (0:ℚ) ≤ if cmin (solar / t) NORMSOLAR_MAX > 0 then _ else 0
        rw [if_pos hn]
        exact le_cmax_right _ 0
      · show (0:ℚ) ≤ if cmin (solar / t) NORMSOLAR_MAX > 0 then _ else 0
        rw [if_neg hn]
    · rw [if_neg ht]
  · by_cases ht : t > 0
    · rw [if_pos ht]
      by_cases hn : cmin (solar / t) NORMSOLAR_MAX > 0
      · show (if cmin (solar / t) NORMSOLAR_MAX > 0 then _ else 0) ≤ (0.9:ℚ)
        rw [if_pos hn]
        exact cmax_clamp_le _ _ (by norm_num)
      · show (if cmin (solar / t) NORMSOLAR_MAX > 0 then _ else 0) ≤ (0.9:ℚ)
        rw [if_neg hn]
        norm_num
    · rw [if_neg ht]
      norm_num

/-- C6: whenever the normalized irradiance min(solar / toasolar, 0.85) is
strictly positive, the direct beam fraction is exp(3 - 1.34 norm - 1.65/norm)
clamped to the interval from 0 to 0.9, and it is 0 otherwise; consequently
the returned fdir always lies between 0 and 0.9. -/
theorem calc_solar_parameters_fdir_clamped (ops : MathOps) (year month : ℤ)
    (day lat lon : ℚ) (use_spa : ℤ) (solar : ℚ) (gsun : SolarOut) (gdist gcza : ℚ) :
    (0 < (calc_solar_parameters ops year month day lat lon use_spa solar
        gsun gdist gcza).normsolar →
      (calc_solar_parameters ops year month day lat lon use_spa solar gsun gdist gcza).fdir =
        cmax (cmin (ops.exp (3
          - 1.34 * (calc_solar_parameters ops year month day lat lon use_spa solar
              gsun gdist gcza).normsolar
          - 1.65 / (calc_solar_parameters ops year month day lat lon use_spa solar
              gsun gdist gcza).normsolar)) 0.9) 0) ∧
    (¬ 0 < (calc_solar_parameters ops year month day lat lon use_spa solar
        gsun gdist gcza).normsolar →
      (calc_solar_parameters ops year month day lat lon use_spa solar gsun gdist gcza).fdir
        = 0) ∧
    0 ≤ (calc_solar_parameters ops year month day lat lon use_spa solar gsun gdist gcza).fdir ∧
    (calc_solar_parameters ops year month day lat lon use_spa solar gsun gdist gcza).fdir
      ≤ 0.9 := by
  simp only [calc_solar_parameters]
  exact partition_fdir_aux ops solar _ (toasolar_nonneg _ _)

end WBGT
namespace WBGT

set_option maxRecDepth 40000
set_option maxHeartbeats 1000000

theorem exK_val : exK = -3210332997502998/7277869695545 := by
  norm_num [exK, exE, RATIO, Cp, M_AIR, M_H2O]

theorem exH2_val : exH2 = 1640748500149504/172762266718174065 := by
  norm_num [exH2, h_cylinder_in_air, viscosity, thermal_cond, fOps_pow, fOps_sqrt,
    D_WICK, L_WICK, Cp, M_AIR, M_H2O, R_GAS, R_AIR, Pr]

theorem exC4_val : exC4 = 546413386684438853657600000000000000/1103766849704587727207241693 := by
  norm_num [exC4, exH2_val, exS2, STEFANB, EMIS_WICK]

theorem twbStep_xOps_rad0 (prev : ℚ) :
    twbStep xOps 0 0 (1/2) 1000 1 0 0 0 0 (15341371/5000000) 0 prev =
      (prev + 3330269/2370, false, prev + 3330269/23700) := by
  simp only [twbStep, esat, viscosity, thermal_cond, diffusivity, evap, emis_atm,
    h_cylinder_in_air, cfabs, xOps_exp, xOps_pow, xOps_tan, exK_val,
    PI, STEFANB, Cp, M_AIR, M_H2O, RATIO, R_GAS, R_AIR, Pr, EMIS_WICK, ALB_WICK,
    D_WICK, L_WICK, EMIS_SFC, ALB_SFC, CONVERGENCE]
  norm_num
  refine ⟨by ring, ?_, by ring⟩
  split_ifs with hc
  · linarith
  · linarith

theorem twbLoop_xOps_rad0 : ∀ (fuel : ℕ) (prev : ℚ),
    (twbLoop xOps 0 0 (1/2) 1000 1 0 0 0 0 (15341371/5000000) 0 fuel prev).converged
      = false := by
  intro fuel
  induction fuel with
  | zero => intro prev; simp [twbLoop]
  | succ n ih =>
      intro prev
      simp only [twbLoop]
      rw [twbStep_xOps_rad0]
      dsimp only
      rw [if_neg (show ¬(false = true) by simp)]
      rcases Nat.eq_zero_or_pos n with h | h
      · subst h
        rw [if_pos rfl]
      · rw [if_neg (Nat.pos_iff_ne_zero.mp h)]
        exact ih _

theorem Twb_xOps_psy : Twb xOps 0 (1/2) 1000 1 0 0 0 0 = -9999 := by
  have h : (twbRun xOps 0 (1/2) 1000 1 0 0 0 0).converged = false := by
    simp only [twbRun]
    rw [show (1/2 : ℚ) * esat xOps 0 0 = 15341371/5000000 from by
      norm_num [esat, xOps_exp]]
    rw [xOps_acos]
    exact twbLoop_xOps_rad0 MAX_ITER _
  simp only [Twb]
  rw [h]
  norm_num

theorem twbStep_xOps_rad1_first :
    twbStep xOps 0 0 (1/2) 1000 1 0 0 0 0 (15341371/5000000) 1 (5463/20) =
      (5463/20, true, 5463/20) := by
  norm_num [twbStep, esat, dew_point, viscosity, thermal_cond, diffusivity, evap,
    emis_atm, h_cylinder_in_air, cfabs, xOps_exp, xOps_pow, xOps_tan, fOps_pow, fOps_sqrt,
    xOps_sqrt, exK_val, exC4_val, PI, STEFANB, Cp, M_AIR, M_H2O, RATIO, R_GAS, R_AIR, Pr,
    EMIS_WICK, ALB_WICK, D_WICK, L_WICK, EMIS_SFC, ALB_SFC, CONVERGENCE]

theorem twbLoop_succ (ops : MathOps) (Tair Tsfc rh Pair speed solar fdir cza sza eair : ℚ)
    (rad : ℤ) (fuel : ℕ) (prev : ℚ) :
    twbLoop ops Tair Tsfc rh Pair speed solar fdir cza sza eair rad (fuel + 1) prev =
      if (twbStep ops Tair Tsfc rh Pair speed solar fdir cza sza eair rad prev).2.1 = true then
        ⟨(twbStep ops Tair Tsfc rh Pair speed solar fdir cza sza eair rad prev).1, true, 1⟩
      else if fuel = 0 then
        ⟨(twbStep ops Tair Tsfc rh Pair speed solar fdir cza sza eair rad prev).1, false, 1⟩
      else
        ⟨(twbLoop ops Tair Tsfc rh Pair speed solar fdir cza sza eair rad fuel
            (twbStep ops Tair Tsfc rh Pair speed solar fdir cza sza eair rad prev).2.2).val,
          (twbLoop ops Tair Tsfc rh Pair speed solar fdir cza sza eair rad fuel
            (twbStep ops Tair Tsfc rh Pair speed solar fdir cza sza eair rad prev).2.2).converged,
          (twbLoop ops Tair Tsfc rh Pair speed solar fdir cza sza eair rad fuel
            (twbStep ops Tair Tsfc rh Pair speed solar fdir cza sza eair rad prev).2.2).iters + 1⟩ :=
  rfl

theorem tglobeLoop_succ (ops : MathOps) (Tair Tsfc rh Pair speed solar fdir cza d_globe : ℚ)
    (fuel : ℕ) (prev : ℚ) :
    tglobeLoop ops Tair Tsfc rh Pair speed solar fdir cza d_globe (fuel + 1) prev =
      if (tglobeStep ops Tair Tsfc rh Pair speed solar fdir cza d_globe prev).2.1 = true then
        ⟨(tglobeStep ops Tair Tsfc rh Pair speed solar fdir cza d_globe prev).1, true, 1⟩
      else if fuel = 0 then
        ⟨(tglobeStep ops Tair Tsfc rh Pair speed solar fdir cza d_globe prev).1, false, 1⟩
      else
        ⟨(tglobeLoop ops Tair Tsfc rh Pair speed solar fdir cza d_globe fuel
            (tglobeStep ops Tair Tsfc rh Pair speed solar fdir cza d_globe prev).2.2).val,
          (tglobeLoop ops Tair Tsfc rh Pair speed solar fdir cza d_globe fuel
            (tglobeStep ops Tair Tsfc rh Pair speed solar fdir cza d_globe prev).2.2).converged,
          (tglobeLoop ops Tair Tsfc rh Pair speed solar fdir cza d_globe fuel
            (tglobeStep ops Tair Tsfc rh Pair speed solar fdir cza d_globe prev).2.2).iters + 1⟩ :=
  rfl

theorem Twb_xOps_nwb : Twb xOps 0 (1/2) 1000 1 0 0 0 1 = 0 := by
  have h : twbRun xOps 0 (1/2) 1000 1 0 0 0 1 = ⟨5463/20, true, 1⟩ := by
    simp only [twbRun, MAX_ITER]
    rw [show (1/2 : ℚ) * esat xOps 0 0 = 15341371/5000000 from by
      norm_num [esat, xOps_exp]]
    rw [show dew_point xOps (15341371/5000000) 0 = 5463/20 from by
      norm_num [dew_point, xOps_log]]
    rw [xOps_acos]
    rw [show (50 : ℕ) = 49 + 1 from rfl, twbLoop_succ, twbStep_xOps_rad1_first]
    dsimp only
    rw [if_pos rfl]
  simp only [Twb]
  rw [h]
  norm_num

theorem tglobeStep_xOps_first :
    tglobeStep xOps 0 0 (1/2) 1000 1 0 0 0 D_GLOBE 0 = (0, true, 0) := by
  norm_num [tglobeStep, esat, viscosity, thermal_cond, emis_atm, h_sphere_in_air,
    cfabs, xOps_exp, xOps_pow, xOps_sqrt, exC4_val, STEFANB, Cp, M_AIR, M_H2O, R_GAS,
    R_AIR, Pr, EMIS_GLOBE, ALB_GLOBE, D_GLOBE, EMIS_SFC, ALB_SFC, CONVERGENCE]

theorem Tglobe_xOps : Tglobe xOps 0 (1/2) 1000 1 0 0 0 D_GLOBE = -5463/20 := by
  have h : tglobeRun xOps 0 (1/2) 1000 1 0 0 0 D_GLOBE = ⟨0, true, 1⟩ := by
    simp only [tglobeRun, MAX_ITER]
    rw [if_neg (show ¬(D_GLOBE = 0) by norm_num [D_GLOBE])]
    rw [show (50 : ℕ) = 49 + 1 from rfl, tglobeLoop_succ, tglobeStep_xOps_first]
    dsimp only
    rw [if_pos rfl]
  simp only [Tglobe]
  rw [h]
  norm_num

theorem twbStep_zOps (rad : ℤ) (prev : ℚ) (hp : 1/50 ≤ prev) :
    twbStep zOps 0 0 1 1000 1 0 0 0 0 0 rad prev = (0, false, 9/10 * prev) := by
  simp only [twbStep, esat, viscosity, thermal_cond, diffusivity, evap, emis_atm,
    h_cylinder_in_air, cfabs, zOps_exp, zOps_pow, zOps_tan, zOps_sqrt,
    PI, STEFANB, Cp, M_AIR, M_H2O, RATIO, R_GAS, R_AIR, Pr, EMIS_WICK, ALB_WICK,
    D_WICK, L_WICK, EMIS_SFC, ALB_SFC, CONVERGENCE]
  norm_num
  split_ifs with hc
  · linarith
  · linarith

theorem twbLoop_zOps_decay (rad : ℤ) : ∀ (fuel : ℕ) (prev : ℚ),
    1/50 ≤ prev * (9/10)^fuel →
    (twbLoop zOps 0 0 1 1000 1 0 0 0 0 0 rad fuel prev).converged = false := by
  intro fuel
  induction fuel with
  | zero => intro prev h; simp [twbLoop]
  | succ n ih =>
      intro prev h
      have hpow : (0:ℚ) < (9/10)^(n+1) := by positivity
      have h0 : 0 < prev := by
        rcases le_or_lt prev 0 with hle | hlt
        · exfalso
          nlinarith
        · exact hlt
      have hple : prev * (9/10)^(n+1) ≤ prev :=
        mul_le_of_le_one_right h0.le
          (pow_le_one (by norm_num) (by norm_num))
      have hp : 1/50 ≤ prev := le_trans h hple
      rw [twbLoop_succ, twbStep_zOps rad prev hp]
      dsimp only
      rw [if_neg (show ¬(false = true) by simp)]
      rcases Nat.eq_zero_or_pos n with hn | hn
      · subst hn
        rw [if_pos rfl]
      · rw [if_neg (Nat.pos_iff_ne_zero.mp hn)]
        refine ih _ ?_
        rw [show (9:ℚ)/10 * prev * (9/10)^n = prev * (9/10)^(n+1) from by ring]
        exact h

theorem Twb_zOps (rad : ℤ) : Twb zOps 0 1 1000 1 0 0 0 rad = -9999 := by
  have h : (twbRun zOps 0 1 1000 1 0 0 0 rad).converged = false := by
    simp only [twbRun, MAX_ITER]
    rw [show (1:ℚ) * esat zOps 0 0 = 0 from by norm_num [esat, zOps_exp]]
    rw [show dew_point zOps 0 0 = 5463/20 from by norm_num [dew_point, zOps_log]]
    rw [zOps_acos]
    exact twbLoop_zOps_decay rad 50 (5463/20) (by norm_num)
  simp only [Twb]
  rw [h]
  norm_num

theorem tglobeStep_zOps_first :
    tglobeStep zOps 0 0 1 1000 1 0 0 0 D_GLOBE 0 = (0, true, 0) := by
  norm_num [tglobeStep, esat, viscosity, thermal_cond, emis_atm, h_sphere_in_air,
    cfabs, zOps_exp, zOps_pow, zOps_sqrt, STEFANB, Cp, M_AIR, M_H2O, R_GAS,
    R_AIR, Pr, EMIS_GLOBE, ALB_GLOBE, D_GLOBE, EMIS_SFC, ALB_SFC, CONVERGENCE]

theorem Tglobe_zOps : Tglobe zOps 0 1 1000 1 0 0 0 D_GLOBE = -5463/20 := by
  have h : tglobeRun zOps 0 1 1000 1 0 0 0 D_GLOBE = ⟨0, true, 1⟩ := by
    simp only [tglobeRun, MAX_ITER]
    rw [if_neg (show ¬(D_GLOBE = 0) by norm_num [D_GLOBE])]
    rw [show (50 : ℕ) = 49 + 1 from rfl, tglobeLoop_succ, tglobeStep_zOps_first]
    dsimp only
    rw [if_pos rfl]
  simp only [Tglobe]
  rw [h]
  norm_num

theorem twbStep_fOps (prev : ℚ) :
    twbStep fOps (5463/20) (5463/20) (1/2) 1000 1 0 0 0 0 (15341371/5000000) 0 prev =
      (prev + 462500/237, false, prev + 46250/237) := by
  simp only [twbStep, esat, viscosity, thermal_cond, diffusivity, evap, emis_atm,
    h_cylinder_in_air, cfabs, fOps_exp, fOps_pow, fOps_tan, exK_val,
    PI, STEFANB, Cp, M_AIR, M_H2O, RATIO, R_GAS, R_AIR, Pr, EMIS_WICK, ALB_WICK,
    D_WICK, L_WICK, EMIS_SFC, ALB_SFC, CONVERGENCE]
  norm_num
  refine ⟨by ring, ?_, by ring⟩
  split_ifs with hc
  · linarith
  · linarith

theorem twbLoop_fOps : ∀ (fuel : ℕ) (prev : ℚ),
    (twbLoop fOps (5463/20) (5463/20) (1/2) 1000 1 0 0 0 0 (15341371/5000000) 0
      fuel prev).converged = false := by
  intro fuel
  induction fuel with
  | zero => intro prev; simp [twbLoop]
  | succ n ih =>
      intro prev
      rw [twbLoop_succ, twbStep_fOps]
      dsimp only
      rw [if_neg (show ¬(false = true) by simp)]
      rcases Nat.eq_zero_or_pos n with h | h
      · subst h
        rw [if_pos rfl]
      · rw [if_neg (Nat.pos_iff_ne_zero.mp h)]
        exact ih _

theorem twbRun_fOps_conv :
    (twbRun fOps (5463/20) (1/2) 1000 1 0 0 0 0).converged = false := by
  simp only [twbRun]
  rw [show (1/2 : ℚ) * esat fOps (5463/20) 0 = 15341371/5000000 from by
    norm_num [esat, fOps_exp]]
  rw [fOps_acos]
  exact twbLoop_fOps MAX_ITER _

theorem Twb_fOps : Twb fOps (5463/20) (1/2) 1000 1 0 0 0 0 = -9999 := by
  simp only [Twb]
  rw [twbRun_fOps_conv]
  norm_num

theorem tglobeStep_fOps (prev : ℚ) (hp : 1/50 ≤ prev) :
    tglobeStep fOps (5463/20) (5463/20) (1/2) 1000 1 0 0 0 D_GLOBE prev =
      (0, false, 9/10 * prev) := by
  simp only [tglobeStep, esat, viscosity, thermal_cond, emis_atm, h_sphere_in_air,
    cfabs, fOps_exp, fOps_pow, fOps_sqrt, STEFANB, Cp, M_AIR, M_H2O, R_GAS,
    R_AIR, Pr, EMIS_GLOBE, ALB_GLOBE, D_GLOBE, EMIS_SFC, ALB_SFC, CONVERGENCE]
  norm_num
  split_ifs with hc
  · linarith
  · linarith

theorem tglobeLoop_fOps_decay : ∀ (fuel : ℕ) (prev : ℚ),
    1/50 ≤ prev * (9/10)^fuel →
    (tglobeLoop fOps (5463/20) (5463/20) (1/2) 1000 1 0 0 0 D_GLOBE
      fuel prev).converged = false := by
  intro fuel
  induction fuel with
  | zero => intro prev h; simp [tglobeLoop]
  | succ n ih =>
      intro prev h
      have hpow : (0:ℚ) < (9/10)^(n+1) := by positivity
      have h0 : 0 < prev := by
        rcases le_or_lt prev 0 with hle | hlt
        · exfalso
          nlinarith
        · exact hlt
      have hple : prev * (9/10)^(n+1) ≤ prev :=
        mul_le_of_le_one_right h0.le
          (pow_le_one (by norm_num) (by norm_num))
      have hp : 1/50 ≤ prev := le_trans h hple
      rw [tglobeLoop_succ, tglobeStep_fOps prev hp]
      dsimp only
      rw [if_neg (show ¬(false = true) by simp)]
      rcases Nat.eq_zero_or_pos n with hn | hn
      · subst hn
        rw [if_pos rfl]
      · rw [if_neg (Nat.pos_iff_ne_zero.mp hn)]
        refine ih _ ?_
        rw [show (9:ℚ)/10 * prev * (9/10)^n = prev * (9/10)^(n+1) from by ring]
        exact h

theorem tglobeRun_fOps_conv :
    (tglobeRun fOps (5463/20) (1/2) 1000 1 0 0 0 0).converged = false := by
  simp only [tglobeRun, MAX_ITER, if_true]
  exact tglobeLoop_fOps_decay 50 (5463/20) (by norm_num)

theorem Tglobe_fOps : Tglobe fOps (5463/20) (1/2) 1000 1 0 0 0 0 = -9999 := by
  simp only [Tglobe]
  rw [tglobeRun_fOps_conv]
  norm_num

/-!
Evaluated runs of the solar partition and of calc_wbgt on the concrete
interpretations: latitude 91 puts solarposition on its validation path, so
the cosine of the zenith angle is computed from the unwritten initial
values. -/

theorem solarposition_91 (ops : MathOps) (day : ℚ) (g : SolarOut) :
    solarposition ops 2000 6 day 0 91 (-98) g = (-1, g) := by
  simp only [solarposition]
  rw [if_pos (show (91:ℚ) < -90 ∨ (91:ℚ) > 90 ∨ (-98:ℚ) < -180 ∨ (-98:ℚ) > 180 from by
    norm_num)]

theorem csp_xOps (day : ℚ) :
    calc_solar_parameters xOps 2000 6 day 91 (-98) 0 500 g0 0 0 = ⟨0, 0, 0, 0, 0, 0⟩ := by
  simp only [calc_solar_parameters]
  rw [solarposition_91]
  norm_num [g0, cmax, cmin, xOps_cos, SOLAR_CONST, CZA_MIN, NORMSOLAR_MAX]

theorem csp_zOps (day : ℚ) :
    calc_solar_parameters zOps 2000 6 day 91 (-98) 0 500 g0 0 0 = ⟨0, 0, 0, 0, 0, 0⟩ := by
  simp only [calc_solar_parameters]
  rw [solarposition_91]
  norm_num [g0, cmax, cmin, zOps_cos, SOLAR_CONST, CZA_MIN, NORMSOLAR_MAX]

theorem csp_oOps :
    calc_solar_parameters oOps 2000 6 21.5 91 (-98) 0 10000 g1 0 0 =
      ⟨0, 23239/20, 1, 9/10, 1367, 17/20⟩ := by
  simp only [calc_solar_parameters]
  rw [solarposition_91]
  norm_num [g1, cmax, cmin, oOps_cos, oOps_exp, SOLAR_CONST, CZA_MIN, NORMSOLAR_MAX]

theorem calc_wbgt_xOps_run :
    calc_wbgt xOps 2000 6 21 12 0 0 0 0 91 (-98) 500 1000 (-273.15) 50 1 2 0 0 0 0 0 g0 0 0 =
      ⟨1, 0, -5463/20, 0, -9999, -16389/200, 0⟩ := by
  simp only [calc_wbgt]
  rw [csp_xOps]
  dsimp only
  rw [if_neg (show ¬((2:ℚ) ≠ REF_HEIGHT) from by norm_num [REF_HEIGHT])]
  rw [show cmax 1 (cmax 0 MIN_SPEED) = 1 from by norm_num [cmax, MIN_SPEED]]
  rw [show (-273.15 : ℚ) + 273.15 = 0 from by norm_num]
  rw [show (0.01 : ℚ) * 50 = 1/2 from by norm_num]
  rw [if_pos trivial]
  rw [Tglobe_xOps, Twb_xOps_nwb, Twb_xOps_psy]
  norm_num

theorem calc_wbgt_zOps_run :
    calc_wbgt zOps 2000 6 21 12 0 0 0 0 91 (-98) 500 1000 (-273.15) 100 1 2 0 0 0 0 0 g0 0 0 =
      ⟨1, 0, -5463/20, -9999, -9999, -9999, -1⟩ := by
  simp only [calc_wbgt]
  rw [csp_zOps]
  dsimp only
  rw [if_neg (show ¬((2:ℚ) ≠ REF_HEIGHT) from by norm_num [REF_HEIGHT])]
  rw [show cmax 1 (cmax 0 MIN_SPEED) = 1 from by norm_num [cmax, MIN_SPEED]]
  rw [show (-273.15 : ℚ) + 273.15 = 0 from by norm_num]
  rw [show (0.01 : ℚ) * 100 = 1 from by norm_num]
  rw [if_pos trivial]
  rw [Tglobe_zOps, Twb_zOps 1, Twb_zOps 0]
  norm_num

/-- C1 witness: a run of calc_wbgt in which both checked solves succeed, so
the returned Twbg is the weighted sum of the returned temperatures. -/
theorem calc_wbgt_composite_weighted_sum_witness :
    (calc_wbgt xOps 2000 6 21 12 0 0 0 0 91 (-98) 500 1000 (-273.15) 50 1 2 0 0 0 0 0
        g0 0 0).Tg ≠ -9999 ∧
    (calc_wbgt xOps 2000 6 21 12 0 0 0 0 91 (-98) 500 1000 (-273.15) 50 1 2 0 0 0 0 0
        g0 0 0).Tnwb ≠ -9999 ∧
    (calc_wbgt xOps 2000 6 21 12 0 0 0 0 91 (-98) 500 1000 (-273.15) 50 1 2 0 0 0 0 0
        g0 0 0).Twbg =
      0.1 * (-273.15)
      + 0.2 * (calc_wbgt xOps 2000 6 21 12 0 0 0 0 91 (-98) 500 1000 (-273.15) 50 1 2 0 0
          0 0 0 g0 0 0).Tg
      + 0.7 * (calc_wbgt xOps 2000 6 21 12 0 0 0 0 91 (-98) 500 1000 (-273.15) 50 1 2 0 0
          0 0 0 g0 0 0).Tnwb := by
  have hTg : (calc_wbgt xOps 2000 6 21 12 0 0 0 0 91 (-98) 500 1000 (-273.15) 50 1 2 0 0
      0 0 0 g0 0 0).Tg ≠ -9999 := by
    rw [calc_wbgt_xOps_run]
    norm_num
  have hTnwb : (calc_wbgt xOps 2000 6 21 12 0 0 0 0 91 (-98) 500 1000 (-273.15) 50 1 2 0 0
      0 0 0 g0 0 0).Tnwb ≠ -9999 := by
    rw [calc_wbgt_xOps_run]
    norm_num
  exact ⟨hTg, hTnwb, calc_wbgt_composite_weighted_sum xOps 2000 6 21 12 0 0 0 0 91 (-98)
    500 1000 (-273.15) 50 1 2 0 0 0 0 0 g0 0 0 hTg hTnwb⟩

/-- C3 counterexample: a run of calc_wbgt in which the psychrometric wet bulb
solve fails with the -9999 sentinel while the globe and natural wet bulb
solves succeed; calc_wbgt neither forces Twbg to the sentinel nor returns the
failure signal -1, refuting the claim that a failure of any of the three
solver invocations triggers the failure path. -/
theorem calc_wbgt_psy_failure_unchecked :
    (calc_wbgt xOps 2000 6 21 12 0 0 0 0 91 (-98) 500 1000 (-273.15) 50 1 2 0 0 0 0 0
        g0 0 0).Tpsy = -9999 ∧
    (calc_wbgt xOps 2000 6 21 12 0 0 0 0 91 (-98) 500 1000 (-273.15) 50 1 2 0 0 0 0 0
        g0 0 0).ret ≠ -1 ∧
    (calc_wbgt xOps 2000 6 21 12 0 0 0 0 91 (-98) 500 1000 (-273.15) 50 1 2 0 0 0 0 0
        g0 0 0).Twbg ≠ -9999 := by
  refine ⟨?_, ?_, ?_⟩ <;> rw [calc_wbgt_xOps_run] <;> norm_num

/-- C3 witness (amended claim): a run in which the natural wet bulb solve
fails, so calc_wbgt reports the sentinel Twbg and the failure signal. -/
theorem calc_wbgt_failure_propagation_witness :
    (calc_wbgt zOps 2000 6 21 12 0 0 0 0 91 (-98) 500 1000 (-273.15) 100 1 2 0 0 0 0 0
        g0 0 0).Tnwb = -9999 ∧
    ((calc_wbgt zOps 2000 6 21 12 0 0 0 0 91 (-98) 500 1000 (-273.15) 100 1 2 0 0 0 0 0
        g0 0 0).Twbg = -9999 ∧
      (calc_wbgt zOps 2000 6 21 12 0 0 0 0 91 (-98) 500 1000 (-273.15) 100 1 2 0 0 0 0 0
        g0 0 0).ret = -1) := by
  have h : (calc_wbgt zOps 2000 6 21 12 0 0 0 0 91 (-98) 500 1000 (-273.15) 100 1 2 0 0
      0 0 0 g0 0 0).Tnwb = -9999 := by
    rw [calc_wbgt_zOps_run]
  exact ⟨h, calc_wbgt_failure_propagation zOps 2000 6 21 12 0 0 0 0 91 (-98) 500 1000
    (-273.15) 100 1 2 0 0 0 0 0 g0 0 0 (Or.inr h)⟩

/-- C2 witness: a run in which neither loop ever satisfies the convergence
test, so both solves stop at the iteration cap and return -9999. -/
theorem solver_iteration_cap_witness :
    (twbRun fOps (5463/20) (1/2) 1000 1 0 0 0 0).converged = false ∧
    Twb fOps (5463/20) (1/2) 1000 1 0 0 0 0 = -9999 ∧
    (tglobeRun fOps (5463/20) (1/2) 1000 1 0 0 0 0).converged = false ∧
    Tglobe fOps (5463/20) (1/2) 1000 1 0 0 0 0 = -9999 :=
  ⟨twbRun_fOps_conv,
   (solver_iteration_cap fOps (5463/20) (1/2) 1000 1 0 0 0 0 0).2.2.1 twbRun_fOps_conv,
   tglobeRun_fOps_conv,
   (solver_iteration_cap fOps (5463/20) (1/2) 1000 1 0 0 0 0 0).2.2.2 tglobeRun_fOps_conv⟩

/-- C6 witness: a run of calc_solar_parameters with a strictly positive
normalized irradiance, whose direct beam fraction is the clamped exponential
(here 0.9, since this interpretation sends exp to 1). -/
theorem calc_solar_parameters_fdir_clamped_witness :
    0 < (calc_solar_parameters oOps 2000 6 21.5 91 (-98) 0 10000 g1 0 0).normsolar ∧
    (calc_solar_parameters oOps 2000 6 21.5 91 (-98) 0 10000 g1 0 0).fdir =
      cmax (cmin (oOps.exp (3
        - 1.34 * (calc_solar_parameters oOps 2000 6 21.5 91 (-98) 0 10000 g1 0 0).normsolar
        - 1.65 / (calc_solar_parameters oOps 2000 6 21.5 91 (-98) 0 10000 g1 0 0).normsolar))
        0.9) 0 := by
  have h : 0 < (calc_solar_parameters oOps 2000 6 21.5 91 (-98) 0 10000 g1 0 0).normsolar := by
    rw [csp_oOps]
    norm_num
  exact ⟨h, (calc_solar_parameters_fdir_clamped oOps 2000 6 21.5 91 (-98) 0 10000 g1 0 0).1 h⟩

/-- C7 witness: a run of calc_solar_parameters whose computed cosine of the
solar zenith angle is below the threshold, with both outputs forced to 0. -/
theorem calc_solar_parameters_below_horizon_witness :
    (calc_solar_parameters zOps 2000 6 21.5 91 (-98) 0 500 g0 0 0).cza < 0.00873 ∧
    ((calc_solar_parameters zOps 2000 6 21.5 91 (-98) 0 500 g0 0 0).solar = 0 ∧
      (calc_solar_parameters zOps 2000 6 21.5 91 (-98) 0 500 g0 0 0).fdir = 0) := by
  have h : (calc_solar_parameters zOps 2000 6 21.5 91 (-98) 0 500 g0 0 0).cza < 0.00873 := by
    rw [csp_zOps]
    norm_num
  exact ⟨h, calc_solar_parameters_below_horizon zOps 2000 6 21.5 91 (-98) 0 500 g0 0 0 h⟩

end WBGT
